import Mathlib

/-!
# Verification of the delegated-identity OAuth2 token subsystem

Shallow embedding of the token acquisition, caching and callback code of the
repository (src/src/auth.py, src/scripts/auth_server.py,
src/functions/shared/auth_exchange.py, src/functions/callback/__init__.py).

Modelling conventions:
* Timestamps and TTLs are rationals (Python floats are modelled as exact
  rationals; none of the verified properties depend on rounding).
* Each top-level call receives the current clock value `now`; the clock is
  modelled as constant within one call (the code reads `time.time()` at most
  a few milliseconds apart inside a call).
* Every `httpx.post` to the provider token endpoint is modelled by an oracle
  `Oracle : TokenRequest → HttpResult`: the form fields the code sends become
  the `TokenRequest`, the network outcome is either a response with a status
  and parsed JSON body or a transport failure (`httpx.TransportError`, which
  in httpx is a subclass of `httpx.HTTPError`).
* Python exceptions are an `Except AuthErr` result; `resp.raise_for_status()`
  throws `AuthErr.httpStatus`, `body["access_token"]` on a missing key throws
  `AuthErr.keyError`, `RuntimeError` is `AuthErr.runtime`, and the
  `DelegatedAuthRequired` exception class is `AuthErr.delegatedAuthRequired`.
* Environment variables of type `str | None` are modelled as `String` with
  `""` standing for unset; this matches the code, which only ever tests them
  for Python truthiness (where both `None` and `""` are falsy).
* The durable token record (local file `~/.sales-prep-demo-token.json` or the
  Azure blob at TOKEN_STORAGE_URL) is modelled as an optional flat JSON
  object; `json.dumps`/`json.loads` round-tripping of null/string/number
  values is modelled as the identity on that object representation.
-/

namespace SalesPitchAuth

/-- A JSON value as stored in the durable token record (the records written by
the code only ever contain nulls, strings and numbers). -/
inductive JVal where
  | null : JVal
  | jstr : String → JVal
  | jnum : ℚ → JVal
deriving DecidableEq

/-- A flat JSON object: an association list of key/value pairs. -/
abbrev JObj := List (String × JVal)

/-- Python's dict.get on a JSON object: the first value bound to the key. -/
def jget : JObj → String → Option JVal
  | [], _ => none
  | (k', v) :: rest, k => if k' = k then some v else jget rest k

/-- Read a key expected to hold a string; a null or absent key gives none
(matching dict.get's None default). -/
def jgetStr (j : JObj) (k : String) : Option String :=
  match jget j k with
  | some (JVal.jstr s) => some s
  | _ => none

/-- Read a key expected to hold a number, with a default for an absent key
(matching data.get with a numeric default). -/
def jgetNum (j : JObj) (k : String) (dflt : ℚ) : ℚ :=
  match jget j k with
  | some (JVal.jnum q) => q
  | _ => dflt

/-- Parsed JSON body of a token-endpoint response; `none` means the key is
absent from the body. -/
structure Body where
  accessToken : Option String := none
  refreshToken : Option String := none
  expiresIn : Option ℚ := none
deriving DecidableEq

/-- The form fields of one POST to the provider's token endpoint, exactly the
keys the source passes to httpx.post. -/
structure TokenRequest where
  grantType : String
  clientId : String
  clientSecret : Option String := none
  clientAssertionType : Option String := none
  clientAssertion : Option String := none
  scope : String
  fmiPath : Option String := none
  refreshTokenField : Option String := none
  code : Option String := none
  redirectUri : Option String := none
  assertionField : Option String := none
  requestedTokenUse : Option String := none
deriving DecidableEq

/-- Outcome of one HTTP POST: a response, or a network/timeout failure. -/
inductive HttpResult where
  | resp : Nat → Body → HttpResult
  | netError : HttpResult
deriving DecidableEq

/-- The identity provider's token endpoint, as seen by the code under test. -/
abbrev Oracle := TokenRequest → HttpResult

/-- Python exceptions raised by the modelled code. -/
inductive AuthErr where
  | httpStatus : Nat → AuthErr
  | transport : AuthErr
  | keyError : String → AuthErr
  | runtime : String → AuthErr
  | delegatedAuthRequired : String → AuthErr
deriving DecidableEq

/-- Configuration (environment variables); "" models an unset variable. -/
structure Config where
  graphClientId : String := ""
  graphClientSecret : String := ""
  blueprintClientId : String := ""
  blueprintSecret : String := ""
  agentClientId : String := ""
  authRedirectBaseUrl : String := "http://localhost:5050"
  tokenStorageUrl : String := ""
deriving DecidableEq

/-- In-memory app-token cache (auth.py `_agent_token_cache` and
`_legacy_token_cache`). -/
structure AppCache where
  accessToken : Option String := none
  expiresAt : ℚ := 0
deriving DecidableEq

/-- In-memory delegated-token cache (auth.py `_delegated_token_cache`). -/
structure DelegatedCache where
  accessToken : Option String := none
  refreshToken : Option String := none
  expiresAt : ℚ := 0
deriving DecidableEq

/-- Process and durable-storage state threaded through the auth.py functions:
the three module-level caches plus the two durable backends (the local token
file and the cloud blob), each holding the JSON object last written to it. -/
structure AuthState where
  legacyCache : AppCache := {}
  agentCache : AppCache := {}
  delegatedCache : DelegatedCache := {}
  fileStore : Option JObj := none
  blobStore : Option JObj := none
deriving DecidableEq

/-- Python truthiness of an optional string: None and "" are falsy. -/
def pyTruthy : Option String → Bool
  | some s => s != ""
  | none => false

/-- resp.raise_for_status(): statuses at or above 400 raise, a transport
failure raises, otherwise the parsed body is produced. -/
def raiseForStatus : HttpResult → Except AuthErr Body
  | HttpResult.netError => Except.error AuthErr.transport
  | HttpResult.resp s b => if 400 ≤ s then Except.error (AuthErr.httpStatus s) else Except.ok b

/-- body["access_token"]: a KeyError when the key is absent. -/
def bodyAccessToken (b : Body) : Except AuthErr String :=
  match b.accessToken with
  | some a => Except.ok a
  | none => Except.error (AuthErr.keyError "access_token")

def jwtBearerAssertionType : String :=
  "urn:ietf:params:oauth:client-assertion-type:jwt-bearer"

/-- The request of auth.py `_acquire_legacy_token`. -/
def legacyTokenRequest (cfg : Config) : TokenRequest :=
  { grantType := "client_credentials"
    clientId := cfg.graphClientId
    clientSecret := some cfg.graphClientSecret
    scope := "https://graph.microsoft.com/.default" }

/-- Step 1 of the blueprint flow (shared by `_acquire_agent_app_token`,
`_refresh_delegated_token`, and both `get_bootstrap_token` variants):
blueprint credentials, the token-exchange scope and the agent fmi_path. -/
def bootstrapRequest (cfg : Config) : TokenRequest :=
  { grantType := "client_credentials"
    clientId := cfg.blueprintClientId
    clientSecret := some cfg.blueprintSecret
    scope := "api://AzureADTokenExchange/.default"
    fmiPath := some cfg.agentClientId }

/-- Step 2 of the blueprint flow, and also the consent-only autonomous
fallback in both callback handlers (the source posts the identical form in
both places): agent client id with the bootstrap token as assertion. -/
def agentExchangeRequest (cfg : Config) (t1 : String) : TokenRequest :=
  { grantType := "client_credentials"
    clientId := cfg.agentClientId
    clientAssertionType := some jwtBearerAssertionType
    clientAssertion := some t1
    scope := "https://graph.microsoft.com/.default" }

/-- First refresh attempt of `_refresh_delegated_token`: agent client id with
a bootstrap-token assertion. -/
def refreshAssertRequest (cfg : Config) (t1 rt : String) : TokenRequest :=
  { grantType := "refresh_token"
    clientId := cfg.agentClientId
    clientAssertionType := some jwtBearerAssertionType
    clientAssertion := some t1
    refreshTokenField := some rt
    scope := "https://graph.microsoft.com/Calendars.Read offline_access" }

/-- Fallback refresh attempt of `_refresh_delegated_token`: blueprint client
id and secret, no assertion. -/
def refreshPlainRequest (cfg : Config) (rt : String) : TokenRequest :=
  { grantType := "refresh_token"
    clientId := cfg.blueprintClientId
    clientSecret := some cfg.blueprintSecret
    refreshTokenField := some rt
    scope := "https://graph.microsoft.com/Calendars.Read offline_access" }

/-- Primary authorization-code redemption (both `_obo_exchange` variants):
blueprint client id and secret. -/
def codeRedeemPrimaryRequest (cfg : Config) (redirectUri authCode : String) : TokenRequest :=
  { grantType := "authorization_code"
    clientId := cfg.blueprintClientId
    clientSecret := some cfg.blueprintSecret
    code := some authCode
    redirectUri := some redirectUri
    scope := "https://graph.microsoft.com/Calendars.Read offline_access" }

/-- Fallback authorization-code redemption: agent client id with a fresh
bootstrap-token assertion. -/
def codeRedeemFallbackRequest (cfg : Config) (redirectUri t1 authCode : String) : TokenRequest :=
  { grantType := "authorization_code"
    clientId := cfg.agentClientId
    clientAssertionType := some jwtBearerAssertionType
    clientAssertion := some t1
    code := some authCode
    redirectUri := some redirectUri
    scope := "https://graph.microsoft.com/Calendars.Read offline_access" }

/-- The jwt-bearer on-behalf-of exchange request of `try_obo_exchange`. -/
def oboRequest (cfg : Config) (t1 userToken : String) : TokenRequest :=
  { grantType := "urn:ietf:params:oauth:grant-type:jwt-bearer"
    clientId := cfg.agentClientId
    clientAssertionType := some jwtBearerAssertionType
    clientAssertion := some t1
    assertionField := some userToken
    scope := "https://graph.microsoft.com/Calendars.Read"
    requestedTokenUse := some "on_behalf_of" }

/-- auth.py `_use_agent_id`: Agent ID mode is active when the blueprint id,
blueprint secret and agent id are all non-empty. -/
def _use_agent_id (cfg : Config) : Bool :=
  (cfg.blueprintClientId != "") && (cfg.blueprintSecret != "") && (cfg.agentClientId != "")

/-- auth.py `_acquire_legacy_token`: one client_credentials POST with the
legacy registration, raising for status. -/
def _acquire_legacy_token (cfg : Config) (oracle : Oracle) : Except AuthErr Body :=
  raiseForStatus (oracle (legacyTokenRequest cfg))

/-- Message of the RuntimeError raised by `_get_legacy_token` when the legacy
registration is not configured. -/
def legacyNotConfiguredMsg : String :=
  "Legacy Graph auth not configured. Set GRAPH_CLIENT_ID and GRAPH_CLIENT_SECRET in .env"

/-- auth.py `_get_legacy_token`: cached legacy token when still valid under
the 60 s skew, else a configuration check followed by a fresh acquisition
that overwrites the legacy cache. -/
def _get_legacy_token (cfg : Config) (oracle : Oracle) (now : ℚ) (st : AuthState) :
    Except AuthErr (String × AuthState) :=
  if pyTruthy st.legacyCache.accessToken ∧ now < st.legacyCache.expiresAt - 60 then
    Except.ok (st.legacyCache.accessToken.getD "", st)
  else if ¬(cfg.graphClientId ≠ "" ∧ cfg.graphClientSecret ≠ "") then
    Except.error (AuthErr.runtime legacyNotConfiguredMsg)
  else
    match _acquire_legacy_token cfg oracle with
    | Except.error e => Except.error e
    | Except.ok body =>
      match bodyAccessToken body with
      | Except.error e => Except.error e
      | Except.ok a =>
        Except.ok (a,
          { st with legacyCache :=
              { accessToken := some a, expiresAt := now + body.expiresIn.getD 3600 } })

/-- auth.py `_acquire_agent_app_token`: bootstrap grant, then the agent
client_credentials grant with the bootstrap token as assertion. -/
def _acquire_agent_app_token (cfg : Config) (oracle : Oracle) : Except AuthErr Body :=
  match raiseForStatus (oracle (bootstrapRequest cfg)) with
  | Except.error e => Except.error e
  | Except.ok b1 =>
    match bodyAccessToken b1 with
    | Except.error e => Except.error e
    | Except.ok t1 => raiseForStatus (oracle (agentExchangeRequest cfg t1))

/-- auth.py `get_graph_token`: the agent cache / two-step blueprint flow when
Agent ID is configured, otherwise the legacy path. -/
def get_graph_token (cfg : Config) (oracle : Oracle) (now : ℚ) (st : AuthState) :
    Except AuthErr (String × AuthState) :=
  if _use_agent_id cfg then
    if pyTruthy st.agentCache.accessToken ∧ now < st.agentCache.expiresAt - 60 then
      Except.ok (st.agentCache.accessToken.getD "", st)
    else
      match _acquire_agent_app_token cfg oracle with
      | Except.error e => Except.error e
      | Except.ok body =>
        match bodyAccessToken body with
        | Except.error e => Except.error e
        | Except.ok a =>
          Except.ok (a,
            { st with agentCache :=
                { accessToken := some a, expiresAt := now + body.expiresIn.getD 3600 } })
  else _get_legacy_token cfg oracle now st

/-- Encode an optional string as the JSON value json.dumps writes for it. -/
def optStrToJVal : Option String → JVal
  | some s => JVal.jstr s
  | none => JVal.null

/-- The JSON payload `_save_delegated_cache` serializes: exactly the three
keys, taken from the in-memory delegated cache. -/
def encodeDelegatedCache (c : DelegatedCache) : JObj :=
  [("access_token", optStrToJVal c.accessToken),
   ("refresh_token", optStrToJVal c.refreshToken),
   ("expires_at", JVal.jnum c.expiresAt)]

/-- The delegated cache `_load_from_file` / `_load_from_blob` reconstruct from
a parsed JSON object, using dict.get with a None / 0.0 default. -/
def decodeDelegatedCache (j : JObj) : DelegatedCache :=
  { accessToken := jgetStr j "access_token"
    refreshToken := jgetStr j "refresh_token"
    expiresAt := jgetNum j "expires_at" 0 }

/-- auth.py `_load_from_file`: read and parse the local token file into the
delegated cache; any OSError or parse failure is swallowed. -/
def _load_from_file (st : AuthState) : AuthState :=
  match st.fileStore with
  | none => st
  | some j => { st with delegatedCache := decodeDelegatedCache j }

/-- auth.py `_load_from_blob`: download and parse the cloud blob into the
delegated cache; any exception is swallowed. -/
def _load_from_blob (st : AuthState) : AuthState :=
  match st.blobStore with
  | none => st
  | some j => { st with delegatedCache := decodeDelegatedCache j }

/-- auth.py `_load_delegated_cache`: skip the reload only when the in-memory
token is present and valid, else re-read the configured durable backend. -/
def _load_delegated_cache (cfg : Config) (now : ℚ) (st : AuthState) : AuthState :=
  if pyTruthy st.delegatedCache.accessToken ∧ now < st.delegatedCache.expiresAt - 60 then st
  else if cfg.tokenStorageUrl ≠ "" then _load_from_blob st
  else if st.fileStore.isSome then _load_from_file st
  else st

/-- auth.py `_save_delegated_cache`: serialize the in-memory delegated cache
and write it to the configured durable backend. -/
def _save_delegated_cache (cfg : Config) (st : AuthState) : AuthState :=
  let payload := encodeDelegatedCache st.delegatedCache
  if cfg.tokenStorageUrl ≠ "" then { st with blobStore := some payload }
  else { st with fileStore := some payload }

/-- auth.py `clear_delegated_cache`: reset the three in-memory delegated
fields; durable storage is untouched. -/
def clear_delegated_cache (st : AuthState) : AuthState :=
  { st with delegatedCache := { accessToken := none, refreshToken := none, expiresAt := 0 } }

/-- Success tail of the try-block of `_refresh_delegated_token`, applied to
whichever refresh response was chosen: body["access_token"] (a KeyError when
absent), overwrite of the in-memory delegated cache — retaining the previous
refresh token when the response omits one — and the durable save. -/
def refreshSuccess (cfg : Config) (now : ℚ) (st : AuthState) (rt : String) (b : Body) :
    Except AuthErr (Bool × AuthState) :=
  match bodyAccessToken b with
  | Except.error e => Except.error e
  | Except.ok a =>
    Except.ok (true, _save_delegated_cache cfg
      { st with delegatedCache :=
          { accessToken := some a
            refreshToken := some (b.refreshToken.getD rt)
            expiresAt := now + b.expiresIn.getD 3600 } })

/-- Body of the try-block of `_refresh_delegated_token`: bootstrap grant,
assertion-based refresh grant, plain blueprint fallback on status at or above
400, a False result (cache untouched) when both have a status at or above
400, and otherwise the success tail above. -/
def refreshAttempt (cfg : Config) (oracle : Oracle) (now : ℚ) (st : AuthState) (rt : String) :
    Except AuthErr (Bool × AuthState) :=
  match raiseForStatus (oracle (bootstrapRequest cfg)) with
  | Except.error e => Except.error e
  | Except.ok b1 =>
    match bodyAccessToken b1 with
    | Except.error e => Except.error e
    | Except.ok t1 =>
      match oracle (refreshAssertRequest cfg t1 rt) with
      | HttpResult.netError => Except.error AuthErr.transport
      | HttpResult.resp s b =>
        if 400 ≤ s then
          match oracle (refreshPlainRequest cfg rt) with
          | HttpResult.netError => Except.error AuthErr.transport
          | HttpResult.resp s2 b2 =>
            if 400 ≤ s2 then Except.ok (false, st)
            else refreshSuccess cfg now st rt b2
        else refreshSuccess cfg now st rt b

/-- auth.py `_refresh_delegated_token`: no-op without a cached refresh token;
otherwise the attempt above with httpx.HTTPError (including transport errors)
and KeyError caught and turned into a False result. -/
def _refresh_delegated_token (cfg : Config) (oracle : Oracle) (now : ℚ) (st : AuthState) :
    Except AuthErr (Bool × AuthState) :=
  if ¬ pyTruthy st.delegatedCache.refreshToken then Except.ok (false, st)
  else
    match refreshAttempt cfg oracle now st (st.delegatedCache.refreshToken.getD "") with
    | Except.ok r => Except.ok r
    | Except.error (AuthErr.httpStatus _) => Except.ok (false, st)
    | Except.error AuthErr.transport => Except.ok (false, st)
    | Except.error (AuthErr.keyError _) => Except.ok (false, st)
    | Except.error e => Except.error e

/-- auth.py `get_graph_delegated_token`: legacy fallback when Agent ID is not
configured; otherwise reload the durable record, serve a valid cached token,
try the refresh, and finally raise DelegatedAuthRequired with the login URL. -/
def get_graph_delegated_token (cfg : Config) (oracle : Oracle) (now : ℚ) (st : AuthState) :
    Except AuthErr (String × AuthState) :=
  if ¬ _use_agent_id cfg then _get_legacy_token cfg oracle now st
  else
    let st1 := _load_delegated_cache cfg now st
    if pyTruthy st1.delegatedCache.accessToken ∧ now < st1.delegatedCache.expiresAt - 60 then
      Except.ok (st1.delegatedCache.accessToken.getD "", st1)
    else
      match _refresh_delegated_token cfg oracle now st1 with
      | Except.ok (true, st2) => Except.ok (st2.delegatedCache.accessToken.getD "", st2)
      | Except.ok (false, _) =>
        Except.error (AuthErr.delegatedAuthRequired (cfg.authRedirectBaseUrl ++ "/login"))
      | Except.error e => Except.error e

/-- The token dict built by `obo_exchange` / `try_obo_exchange` and persisted
by the callback handlers: here dict.get supplies "" defaults, so the token
fields are plain strings. -/
structure TokenData where
  accessToken : String
  refreshToken : String
  expiresAt : ℚ
deriving DecidableEq

/-- auth_exchange.py `get_bootstrap_token` (and auth_server.py
`_get_bootstrap_token`, which posts the identical form): bootstrap grant with
raise_for_status, then body["access_token"]. -/
def get_bootstrap_token (cfg : Config) (oracle : Oracle) : Except AuthErr String :=
  match raiseForStatus (oracle (bootstrapRequest cfg)) with
  | Except.error e => Except.error e
  | Except.ok b => bodyAccessToken b

/-- The token dict `obo_exchange` builds from a redemption response body,
with dict.get's "" defaults and the 3600-second default TTL. -/
def tokenDataOfBody (now : ℚ) (b : Body) : TokenData :=
  { accessToken := b.accessToken.getD ""
    refreshToken := b.refreshToken.getD ""
    expiresAt := now + b.expiresIn.getD 3600 }

/-- auth_exchange.py `obo_exchange` (and auth_server.py `_obo_exchange`,
identical up to the redirect URI): primary code redemption with the blueprint
credentials; on status at or above 400, a fallback redemption with the agent
client id and a fresh bootstrap assertion; a RuntimeError when both fail. -/
def obo_exchange (cfg : Config) (oracle : Oracle) (redirectUri : String) (now : ℚ)
    (authCode : String) : Except AuthErr TokenData :=
  match oracle (codeRedeemPrimaryRequest cfg redirectUri authCode) with
  | HttpResult.netError => Except.error AuthErr.transport
  | HttpResult.resp s b =>
    if 400 ≤ s then
      match get_bootstrap_token cfg oracle with
      | Except.error e => Except.error e
      | Except.ok t1 =>
        match oracle (codeRedeemFallbackRequest cfg redirectUri t1 authCode) with
        | HttpResult.netError => Except.error AuthErr.transport
        | HttpResult.resp s2 b2 =>
          if 400 ≤ s2 then Except.error (AuthErr.runtime "Code redemption failed")
          else Except.ok (tokenDataOfBody now b2)
    else Except.ok (tokenDataOfBody now b)

/-- auth_exchange.py `try_obo_exchange` (and auth_server.py
`_try_obo_exchange`): fresh bootstrap token (whose failure raises), then the
jwt-bearer on-behalf-of grant; None on a status at or above 400. -/
def try_obo_exchange (cfg : Config) (oracle : Oracle) (now : ℚ) (userToken : String) :
    Except AuthErr (Option TokenData) :=
  match get_bootstrap_token cfg oracle with
  | Except.error e => Except.error e
  | Except.ok t1 =>
    match oracle (oboRequest cfg t1 userToken) with
    | HttpResult.netError => Except.error AuthErr.transport
    | HttpResult.resp s b =>
      if 400 ≤ s then Except.ok none
      else
        match bodyAccessToken b with
        | Except.error e => Except.error e
        | Except.ok a =>
          Except.ok (some
            { accessToken := a
              refreshToken := b.refreshToken.getD ""
              expiresAt := now + b.expiresIn.getD 3600 })

/-- Consent-only autonomous fallback shared by both callback handlers when the
provider returned neither code nor error: bootstrap token, then an app-only
client_credentials grant with the agent assertion, persisted with an empty
refresh token. -/
def consentOnlyFlow (cfg : Config) (oracle : Oracle) (now : ℚ) : Except AuthErr TokenData :=
  match get_bootstrap_token cfg oracle with
  | Except.error e => Except.error e
  | Except.ok t1 =>
    match raiseForStatus (oracle (agentExchangeRequest cfg t1)) with
    | Except.error e => Except.error e
    | Except.ok b =>
      match bodyAccessToken b with
      | Except.error e => Except.error e
      | Except.ok a =>
        Except.ok { accessToken := a, refreshToken := "", expiresAt := now + b.expiresIn.getD 3600 }

/-- Query parameters of a GET /callback request. -/
structure CallbackParams where
  errParam : Option String := none
  errDescription : Option String := none
  code : Option String := none
  stateParam : Option String := none
deriving DecidableEq

/-- Shared code-redemption-plus-OBO step of both callback handlers: redeem the
code, attempt the full OBO exchange on the redeemed access token, and choose
the OBO result when it succeeded, the directly redeemed token otherwise. -/
def redeemAndObo (cfg : Config) (oracle : Oracle) (redirectUri : String) (now : ℚ)
    (authCode : String) : Except AuthErr TokenData :=
  match obo_exchange cfg oracle redirectUri now authCode with
  | Except.error e => Except.error e
  | Except.ok td =>
    match try_obo_exchange cfg oracle now td.accessToken with
    | Except.error e => Except.error e
    | Except.ok (some o) => Except.ok o
    | Except.ok none => Except.ok td

/-- functions/callback/__init__.py `main`: the Azure Functions callback.
Returns the HTTP status and the token record written to blob storage (none
when nothing was persisted). Note that the returned `state` query parameter
is never read. -/
def functions_callback_main (cfg : Config) (oracle : Oracle) (now : ℚ)
    (params : CallbackParams) : Nat × Option TokenData :=
  if pyTruthy params.errParam then (400, none)
  else if ¬ pyTruthy params.code then
    match consentOnlyFlow cfg oracle now with
    | Except.ok td => (200, some td)
    | Except.error _ => (500, none)
  else
    match redeemAndObo cfg oracle (cfg.authRedirectBaseUrl ++ "/callback") now
        (params.code.getD "") with
    | Except.ok final => (200, some final)
    | Except.error _ => (500, none)

/-- Redirect URI hard-coded in scripts/auth_server.py. -/
def serverRedirectUri : String := "http://localhost:5050/callback"

/-- scripts/auth_server.py `CallbackHandler.do_GET` on the /callback path:
the returned state is compared to the stored nonce first and a mismatch is a
400 with no exchange and no file write; then provider errors, then the code
exchange, then the consent-only fallback. Returns the HTTP status and the
token record written to the local token file (none when nothing was
persisted). -/
def server_callback_do_GET (cfg : Config) (oracle : Oracle) (now : ℚ) (nonce : String)
    (params : CallbackParams) : Nat × Option TokenData :=
  if params.stateParam ≠ some nonce then (400, none)
  else if pyTruthy params.errParam then (400, none)
  else if pyTruthy params.code then
    match redeemAndObo cfg oracle serverRedirectUri now (params.code.getD "") with
    | Except.ok final => (200, some final)
    | Except.error _ => (500, none)
  else
    match consentOnlyFlow cfg oracle now with
    | Except.ok td => (200, some td)
    | Except.error _ => (500, none)

/-- Modelled from the spec: the repository source under src contains no
Token-Arrival Poller implementation (spec section 4.6's
wait_for_fresh_token); this follows the spec's words. `obs t` is the durable
object's last-modified timestamp (none when absent) at time `t`. The loop
below records the stamp before polling, sleeps the fixed 3-second interval,
and stops when the stamp differs from the recorded one or the deadline has
elapsed; the result is the boolean outcome together with the clock time at
which the poller stopped. -/
def wait_for_fresh_token_aux (obs : ℚ → Option ℚ) (initial : Option ℚ) (timeout : ℚ) :
    Nat → ℚ → Bool × ℚ
  | 0, t => (false, t)
  | fuel + 1, t =>
    if timeout ≤ t then (false, t)
    else if obs (t + 3) ≠ initial then (true, t + 3)
    else wait_for_fresh_token_aux obs initial timeout fuel (t + 3)

/-- Modelled from the spec: wrapper recording the durable object's stamp (or
its absence) at time 0, then polling on the 3-second interval up to the
timeout. The fuel bound only makes the loop structurally recursive; it
exceeds the number of 3-second steps that fit in the timeout, so the deadline
test alone decides termination. -/
def wait_for_fresh_token (obs : ℚ → Option ℚ) (timeout : ℚ) : Bool × ℚ :=
  wait_for_fresh_token_aux obs (obs 0) timeout (timeout.num.toNat / timeout.den + 2) 0

/-! ## Concrete fixtures for scenarios, counterexamples and witnesses -/

/-- Blueprint-mode configuration used in concrete scenarios. -/
def cfgBlueprint : Config :=
  { blueprintClientId := "bp-id", blueprintSecret := "bp-secret", agentClientId := "agent-id" }

/-- Legacy-only configuration used in concrete scenarios. -/
def cfgLegacy : Config :=
  { graphClientId := "legacy-id", graphClientSecret := "legacy-secret" }

/-- Oracle answering every request with HTTP 200 and a fixed token body. -/
def oracleAllOk : Oracle := fun _ =>
  HttpResult.resp 200
    { accessToken := some "TOK", refreshToken := some "R", expiresIn := some 3600 }

/-- Oracle on which every request fails at the transport level. -/
def oracleDown : Oracle := fun _ => HttpResult.netError

/-- Oracle on which code redemption succeeds but the bootstrap
client_credentials grant is rejected with HTTP 400, so the on-behalf-of
attempt raises before reaching its jwt-bearer request. -/
def oracleBootstrapRejected : Oracle := fun r =>
  if r.grantType = "authorization_code" then
    HttpResult.resp 200
      { accessToken := some "TC", refreshToken := some "RC", expiresIn := some 3600 }
  else HttpResult.resp 400 {}

/-- Oracle whose successful bodies report a zero-second TTL. -/
def oracleZeroTtl : Oracle := fun _ =>
  HttpResult.resp 200 { accessToken := some "A", expiresIn := some 0 }

/-- Oracle whose successful bodies omit expires_in entirely. -/
def oracleNoTtl : Oracle := fun _ =>
  HttpResult.resp 200 { accessToken := some "TOK", refreshToken := some "R" }

/-- Durable-object timeline for the poller scenario: no object before time 2,
one write at time 2. -/
def pollerScenario (t : ℚ) : Option ℚ := if t < 2 then none else some 2

/-! ## Helper lemmas -/

theorem raiseForStatus_ok {r : HttpResult} {b : Body} (h : raiseForStatus r = Except.ok b) :
    ∃ s, r = HttpResult.resp s b ∧ ¬ 400 ≤ s := by
  cases r with
  | netError => exact absurd h (by simp [raiseForStatus])
  | resp s b' =>
    by_cases hs : 400 ≤ s
    · simp [raiseForStatus, hs] at h
    · simp [raiseForStatus, hs] at h
      exact ⟨s, by rw [h], hs⟩

theorem raiseForStatus_err {r : HttpResult} {e : AuthErr} (h : raiseForStatus r = Except.error e) :
    (∃ s, e = AuthErr.httpStatus s) ∨ e = AuthErr.transport := by
  cases r with
  | netError =>
    simp [raiseForStatus] at h
    exact Or.inr h.symm
  | resp s b' =>
    by_cases hs : 400 ≤ s
    · simp [raiseForStatus, hs] at h
      exact Or.inl ⟨s, h.symm⟩
    · simp [raiseForStatus, hs] at h

theorem bodyAccessToken_ok {b : Body} {a : String} (h : bodyAccessToken b = Except.ok a) :
    b.accessToken = some a := by
  cases hb : b.accessToken with
  | none => simp [bodyAccessToken, hb] at h
  | some x => simp [bodyAccessToken, hb] at h; rw [h]

theorem bodyAccessToken_err {b : Body} {e : AuthErr} (h : bodyAccessToken b = Except.error e) :
    e = AuthErr.keyError "access_token" := by
  cases hb : b.accessToken with
  | none => simp [bodyAccessToken, hb] at h; exact h.symm
  | some x => simp [bodyAccessToken, hb] at h

theorem append_login_ne_empty (s : String) : s ++ "/login" ≠ "" := by
  intro h
  have hl := congrArg String.length h
  simp [String.length_append] at hl
  exact absurd hl.2 (by decide)

theorem decode_encode_delegated (c : DelegatedCache) :
    decodeDelegatedCache (encodeDelegatedCache c) = c := by
  rcases c with ⟨a, r, e⟩
  cases a <;> cases r <;>
    simp [encodeDelegatedCache, decodeDelegatedCache, jgetStr, jgetNum, jget, optStrToJVal]

/-! ## Claims -/

/-- C8: writing a DurableTokenRecord through the local-file backend
(`_save_delegated_cache` with no cloud URL configured) and immediately
loading it back with `_load_from_file` restores the in-memory delegated
cache state exactly: access token, refresh token and expiry. -/
theorem c8_local_file_round_trip (cfg : Config) (st : AuthState)
    (hfile : cfg.tokenStorageUrl = "") :
    (_load_from_file (_save_delegated_cache cfg st)).delegatedCache = st.delegatedCache := by
  simp [_save_delegated_cache, _load_from_file, hfile, decode_encode_delegated]

/-- Witness for C8 at a concrete cache state. -/
theorem c8_local_file_round_trip_witness :
    (_load_from_file (_save_delegated_cache { }
        { delegatedCache :=
            { accessToken := some "TOK", refreshToken := some "R", expiresAt := 1234 } })).delegatedCache =
      ({ delegatedCache :=
            { accessToken := some "TOK", refreshToken := some "R", expiresAt := 1234 } } :
        AuthState).delegatedCache :=
  c8_local_file_round_trip { } _ rfl

theorem wait_aux_const (obs : ℚ → Option ℚ) (timeout : ℚ) (h : ∀ t, obs t = obs 0) :
    ∀ (fuel : Nat) (t : ℚ),
      (wait_for_fresh_token_aux obs (obs 0) timeout fuel t).1 = false := by
  intro fuel
  induction fuel with
  | zero => intro t; simp [wait_for_fresh_token_aux]
  | succ n ih =>
    intro t
    rw [wait_for_fresh_token_aux]
    split
    · rfl
    · rw [h (t + 3)]
      simpa using ih (t + 3)

/-- C9: the Token-Arrival Poller records the durable object's last-modified
stamp (or its absence) before polling and polls on a fixed 3-second interval;
in the spec scenario where no durable object exists initially and a write
occurs after 2 seconds with a 10-second timeout it returns true at the first
poll (3 seconds, under 10); and when the last-modified stamp never changes it
returns false. It never inspects token contents (its input is only the
modification-time observation). -/
theorem c9_wait_for_fresh_token :
    (wait_for_fresh_token pollerScenario 10 = (true, 3) ∧ (3 : ℚ) < 10) ∧
      ∀ (obs : ℚ → Option ℚ) (timeout : ℚ), (∀ t, obs t = obs 0) →
        (wait_for_fresh_token obs timeout).1 = false := by
  refine ⟨⟨?_, by norm_num⟩, ?_⟩
  · unfold wait_for_fresh_token
    have hfuel : ((10 : ℚ).num.toNat / (10 : ℚ).den + 2) = 12 := by
      norm_num
      decide
    rw [hfuel, show (12 : Nat) = 11 + 1 from rfl, wait_for_fresh_token_aux]
    norm_num [pollerScenario]
    intro h
    exact absurd h (by decide)
  · intro obs timeout h
    unfold wait_for_fresh_token
    exact wait_aux_const obs timeout h _ 0

/-- Witness for C9's universally quantified part: an unchanging durable
object makes the poller return false. -/
theorem c9_wait_for_fresh_token_witness :
    (wait_for_fresh_token (fun _ => none) 5).1 = false :=
  c9_wait_for_fresh_token.2 (fun _ => none) 5 (fun _ => rfl)

/-- C1 (code evaluation at the failing input): a callback carrying a
mismatched state together with an authorization code. The Azure Functions
callback never validates the state parameter: it redeems the code, performs
the OBO exchange, writes the resulting token durably and answers 200. The
standalone auth server rejects the same request with 400 and writes
nothing. -/
theorem c1_functions_callback_ignores_state :
    functions_callback_main cfgBlueprint oracleAllOk 0
        { code := some "AAA", stateParam := some "evil" } =
      (200, some { accessToken := "TOK", refreshToken := "R", expiresAt := 3600 }) ∧
      server_callback_do_GET cfgBlueprint oracleAllOk 0 "nonce"
          { code := some "AAA", stateParam := some "evil" } = (400, none) := by
  constructor <;>
    norm_num [functions_callback_main, server_callback_do_GET, redeemAndObo, obo_exchange,
      try_obo_exchange, get_bootstrap_token, consentOnlyFlow, raiseForStatus, bodyAccessToken,
      oracleAllOk, cfgBlueprint, pyTruthy, codeRedeemPrimaryRequest, oboRequest,
      bootstrapRequest, agentExchangeRequest] <;>
    (intro h; exact absurd h (by decide))

theorem refreshSuccess_err {cfg : Config} {now : ℚ} {st : AuthState} {rt : String}
    {b : Body} {e : AuthErr} (h : refreshSuccess cfg now st rt b = Except.error e) :
    ∃ k, e = AuthErr.keyError k := by
  unfold refreshSuccess at h
  split at h
  · injection h with h'
    subst h'
    exact ⟨"access_token", bodyAccessToken_err (by assumption)⟩
  · exact absurd h (by simp)

theorem refreshAttempt_err {cfg : Config} {oracle : Oracle} {now : ℚ} {st : AuthState}
    {rt : String} {e : AuthErr}
    (h : refreshAttempt cfg oracle now st rt = Except.error e) :
    (∃ s, e = AuthErr.httpStatus s) ∨ e = AuthErr.transport ∨ ∃ k, e = AuthErr.keyError k := by
  unfold refreshAttempt at h
  split at h
  · injection h with h'
    subst h'
    rcases raiseForStatus_err (by assumption) with ⟨s, hs⟩ | ht
    · exact Or.inl ⟨s, hs⟩
    · exact Or.inr (Or.inl ht)
  · split at h
    · injection h with h'
      subst h'
      exact Or.inr (Or.inr ⟨"access_token", bodyAccessToken_err (by assumption)⟩)
    · split at h
      · injection h with h'
        subst h'
        exact Or.inr (Or.inl rfl)
      · split at h
        · split at h
          · injection h with h'
            subst h'
            exact Or.inr (Or.inl rfl)
          · split at h
            · exact absurd h (by simp)
            · exact Or.inr (Or.inr (refreshSuccess_err h))
        · exact Or.inr (Or.inr (refreshSuccess_err h))

theorem refresh_delegated_never_raises (cfg : Config) (oracle : Oracle) (now : ℚ)
    (st : AuthState) :
    ∃ r, _refresh_delegated_token cfg oracle now st = Except.ok r := by
  unfold _refresh_delegated_token
  split
  · exact ⟨(false, st), rfl⟩
  · cases h : refreshAttempt cfg oracle now st (st.delegatedCache.refreshToken.getD "") with
    | ok r => exact ⟨r, rfl⟩
    | error e =>
      rcases refreshAttempt_err h with ⟨s, rfl⟩ | rfl | ⟨k, rfl⟩ <;> exact ⟨(false, st), rfl⟩

/-- C2: in blueprint mode, whenever `get_graph_delegated_token` fails (the
token cannot be served from the in-memory cache, the durable record, or
either refresh grant — including when no refresh token is cached and when
both grant shapes fail or the network is down), the only exception it raises
is DelegatedAuthRequired carrying AUTH_REDIRECT_BASE_URL ++ "/login", which
is never empty; in particular no transport exception from the refresh attempt
escapes. -/
theorem c2_delegated_failure_raises_auth_url (cfg : Config) (oracle : Oracle) (now : ℚ)
    (st : AuthState) (e : AuthErr) (hmode : _use_agent_id cfg = true)
    (herr : get_graph_delegated_token cfg oracle now st = Except.error e) :
    e = AuthErr.delegatedAuthRequired (cfg.authRedirectBaseUrl ++ "/login") ∧
      cfg.authRedirectBaseUrl ++ "/login" ≠ "" := by
  refine ⟨?_, append_login_ne_empty _⟩
  unfold get_graph_delegated_token at herr
  rw [hmode] at herr
  simp only [not_true_eq_false, if_false] at herr
  split at herr
  · exact absurd herr (by simp)
  · obtain ⟨r, hr⟩ :=
      refresh_delegated_never_raises cfg oracle now (_load_delegated_cache cfg now st)
    rw [hr] at herr
    rcases r with ⟨b, st2⟩
    cases b
    · simp only [Except.error.injEq] at herr
      exact herr.symm
    · exact absurd herr (by simp)

/-- Witness for C2: blueprint mode with the network down and empty state. -/
theorem c2_delegated_failure_witness :
    AuthErr.delegatedAuthRequired "http://localhost:5050/login" =
        AuthErr.delegatedAuthRequired (cfgBlueprint.authRedirectBaseUrl ++ "/login") ∧
      cfgBlueprint.authRedirectBaseUrl ++ "/login" ≠ "" := by
  have herr : get_graph_delegated_token cfgBlueprint oracleDown 0 { } =
      Except.error (AuthErr.delegatedAuthRequired "http://localhost:5050/login") := by
    simp [get_graph_delegated_token, _use_agent_id, cfgBlueprint, _load_delegated_cache,
      _refresh_delegated_token, pyTruthy]
    rfl
  exact c2_delegated_failure_raises_auth_url cfgBlueprint oracleDown 0 { }
    (AuthErr.delegatedAuthRequired "http://localhost:5050/login") (by decide) herr

/-- C4: `clear_delegated_cache` resets only the in-memory delegated cache
(access token, refresh token, expiry) and leaves every other component —
in particular both durable backends — unchanged; and a subsequent
`get_graph_delegated_token` call on any state whose delegated cache is the
cleared one re-reads the configured durable backend before deciding
interactive auth is required, so a valid record written externally between
the two calls is observed and its access token returned (stated for the
local-file backend and for the cloud backend). -/
theorem c4_clear_then_reload (cfg : Config) (oracle : Oracle) (now : ℚ) (st : AuthState)
    (j : JObj) (a : String) :
    ((clear_delegated_cache st).fileStore = st.fileStore ∧
      (clear_delegated_cache st).blobStore = st.blobStore ∧
      (clear_delegated_cache st).legacyCache = st.legacyCache ∧
      (clear_delegated_cache st).agentCache = st.agentCache ∧
      (clear_delegated_cache st).delegatedCache =
        { accessToken := none, refreshToken := none, expiresAt := 0 }) ∧
    (∀ st' : AuthState,
      st'.delegatedCache = { accessToken := none, refreshToken := none, expiresAt := 0 } →
      _use_agent_id cfg = true → cfg.tokenStorageUrl = "" → st'.fileStore = some j →
      jgetStr j "access_token" = some a → a ≠ "" →
      now < jgetNum j "expires_at" 0 - 60 →
      ∃ st2, get_graph_delegated_token cfg oracle now st' = Except.ok (a, st2)) ∧
    (∀ st' : AuthState,
      st'.delegatedCache = { accessToken := none, refreshToken := none, expiresAt := 0 } →
      _use_agent_id cfg = true → cfg.tokenStorageUrl ≠ "" → st'.blobStore = some j →
      jgetStr j "access_token" = some a → a ≠ "" →
      now < jgetNum j "expires_at" 0 - 60 →
      ∃ st2, get_graph_delegated_token cfg oracle now st' = Except.ok (a, st2)) := by
  refine ⟨⟨rfl, rfl, rfl, rfl, rfl⟩, ?_, ?_⟩
  · rintro ⟨lc, ac, dc, fs, bs⟩ hdc hmode hurl hfs hja hane hnow
    simp only at hdc hfs
    subst hdc
    subst hfs
    have hload : _load_delegated_cache cfg now
        ⟨lc, ac, { accessToken := none, refreshToken := none, expiresAt := 0 }, some j, bs⟩ =
        ⟨lc, ac, decodeDelegatedCache j, some j, bs⟩ := by
      simp [_load_delegated_cache, pyTruthy, hurl, _load_from_file]
    refine ⟨⟨lc, ac, decodeDelegatedCache j, some j, bs⟩, ?_⟩
    unfold get_graph_delegated_token
    rw [hmode]
    simp only [not_true_eq_false, if_false, hload]
    simp [decodeDelegatedCache, hja, pyTruthy, hane, hnow]
  · rintro ⟨lc, ac, dc, fs, bs⟩ hdc hmode hurl hbs hja hane hnow
    simp only at hdc hbs
    subst hdc
    subst hbs
    have hload : _load_delegated_cache cfg now
        ⟨lc, ac, { accessToken := none, refreshToken := none, expiresAt := 0 }, fs, some j⟩ =
        ⟨lc, ac, decodeDelegatedCache j, fs, some j⟩ := by
      simp [_load_delegated_cache, pyTruthy, hurl, _load_from_blob]
    refine ⟨⟨lc, ac, decodeDelegatedCache j, fs, some j⟩, ?_⟩
    unfold get_graph_delegated_token
    rw [hmode]
    simp only [not_true_eq_false, if_false, hload]
    simp [decodeDelegatedCache, hja, pyTruthy, hane, hnow]

/-- Witness for C4: a record written externally to the local file after a
clear is picked up and returned. -/
theorem c4_clear_then_reload_witness :
    ∃ st2, get_graph_delegated_token cfgBlueprint oracleDown 0
        { clear_delegated_cache
            { delegatedCache :=
                { accessToken := some "OLD", refreshToken := some "R", expiresAt := 50 } } with
          fileStore := some (encodeDelegatedCache
            { accessToken := some "TOK", refreshToken := some "R", expiresAt := 1000 }) } =
      Except.ok ("TOK", st2) :=
  (c4_clear_then_reload cfgBlueprint oracleDown 0
      { delegatedCache :=
          { accessToken := some "OLD", refreshToken := some "R", expiresAt := 50 } }
      (encodeDelegatedCache
        { accessToken := some "TOK", refreshToken := some "R", expiresAt := 1000 }) "TOK").2.1
    { clear_delegated_cache
        { delegatedCache :=
            { accessToken := some "OLD", refreshToken := some "R", expiresAt := 50 } } with
      fileStore := some (encodeDelegatedCache
        { accessToken := some "TOK", refreshToken := some "R", expiresAt := 1000 }) }
    rfl (by decide) rfl rfl (by decide) (by decide)
    (by
      have h : jgetNum (encodeDelegatedCache
          { accessToken := some "TOK", refreshToken := some "R", expiresAt := 1000 })
          "expires_at" 0 = 1000 := rfl
      rw [h]
      norm_num)

/-- C7: `get_graph_token` selects the two-step blueprint acquisition exactly
when the blueprint client id, blueprint secret and agent client id are all
non-empty (the mode predicate is re-evaluated on the call, not cached);
otherwise it behaves as the single-step legacy path, and that path (on a
cache miss) raises the configuration RuntimeError when the legacy client id
or secret is missing. On the blueprint side (cache miss), the outcome is the
outcome of the two-step `_acquire_agent_app_token`, stored in the agent
cache. -/
theorem c7_mode_selection (cfg : Config) (oracle : Oracle) (now : ℚ) (st : AuthState) :
    (_use_agent_id cfg = true ↔
      (cfg.blueprintClientId ≠ "" ∧ cfg.blueprintSecret ≠ "" ∧ cfg.agentClientId ≠ "")) ∧
    (_use_agent_id cfg = false →
      get_graph_token cfg oracle now st = _get_legacy_token cfg oracle now st) ∧
    (_use_agent_id cfg = false →
      (cfg.graphClientId = "" ∨ cfg.graphClientSecret = "") →
      ¬(pyTruthy st.legacyCache.accessToken = true ∧ now < st.legacyCache.expiresAt - 60) →
      get_graph_token cfg oracle now st =
        Except.error (AuthErr.runtime legacyNotConfiguredMsg)) ∧
    (_use_agent_id cfg = true →
      ¬(pyTruthy st.agentCache.accessToken = true ∧ now < st.agentCache.expiresAt - 60) →
      (∀ e, _acquire_agent_app_token cfg oracle = Except.error e →
        get_graph_token cfg oracle now st = Except.error e) ∧
      (∀ b a, _acquire_agent_app_token cfg oracle = Except.ok b → b.accessToken = some a →
        get_graph_token cfg oracle now st =
          Except.ok (a, { st with agentCache :=
            { accessToken := some a, expiresAt := now + b.expiresIn.getD 3600 } }))) := by
  refine ⟨?_, ?_, ?_, ?_⟩
  · simp [_use_agent_id, and_assoc]
  · intro h
    simp [get_graph_token, h]
  · intro h hcfg hmiss
    have hc : ¬(cfg.graphClientId ≠ "" ∧ cfg.graphClientSecret ≠ "") := by
      rcases hcfg with h1 | h1 <;> simp [h1]
    simp only [get_graph_token, h, Bool.false_eq_true, if_false]
    rw [_get_legacy_token, if_neg hmiss, if_pos hc]
  · intro hmode hmiss
    constructor
    · intro e he
      simp only [get_graph_token, hmode, if_true]
      rw [if_neg hmiss, he]
    · intro b a hb ha
      simp only [get_graph_token, hmode, if_true]
      rw [if_neg hmiss, hb]
      simp [bodyAccessToken, ha]

/-- Witness for C7 at the legacy misconfiguration conjunct: with no
configuration at all, `get_graph_token` raises the RuntimeError. -/
theorem c7_mode_selection_witness :
    get_graph_token { } oracleDown 0 { } =
      Except.error (AuthErr.runtime legacyNotConfiguredMsg) :=
  (c7_mode_selection { } oracleDown 0 { }).2.2.1 (by decide) (Or.inl rfl)
    (by simp [pyTruthy])

/-- C5: the Delegated Token Refresher first attempts the refresh_token grant
as the agent client with a client_assertion taken from a fresh bootstrap
token; on a status at or above 400 it attempts the fallback refresh_token
grant with the blueprint client id and secret; if both fail it reports
failure with the whole state — in particular the in-memory cache — unchanged
(likewise when no refresh token is cached at all); and on either success it
overwrites the in-memory delegated cache with the new access token and
expiry, keeps the newly returned refresh token or retains the previous one
when the response omits it, and persists the cache to durable storage. -/
theorem c5_refresh_fallback_and_persist (cfg : Config) (oracle : Oracle) (now : ℚ)
    (st : AuthState) (rt t1 : String) (s1 : Nat) (b1 : Body) :
    (¬ pyTruthy st.delegatedCache.refreshToken = true →
      _refresh_delegated_token cfg oracle now st = Except.ok (false, st)) ∧
    (st.delegatedCache.refreshToken = some rt → rt ≠ "" →
      oracle (bootstrapRequest cfg) = HttpResult.resp s1 b1 → s1 < 400 →
      b1.accessToken = some t1 →
      ((∀ sA bA sB bB, oracle (refreshAssertRequest cfg t1 rt) = HttpResult.resp sA bA →
          400 ≤ sA →
          oracle (refreshPlainRequest cfg rt) = HttpResult.resp sB bB → 400 ≤ sB →
          _refresh_delegated_token cfg oracle now st = Except.ok (false, st)) ∧
        (∀ sA bA a, oracle (refreshAssertRequest cfg t1 rt) = HttpResult.resp sA bA →
          sA < 400 → bA.accessToken = some a →
          _refresh_delegated_token cfg oracle now st = Except.ok (true,
            _save_delegated_cache cfg { st with delegatedCache :=
              { accessToken := some a
                refreshToken := some (bA.refreshToken.getD rt)
                expiresAt := now + bA.expiresIn.getD 3600 } })) ∧
        (∀ sA bA sB bB a, oracle (refreshAssertRequest cfg t1 rt) = HttpResult.resp sA bA →
          400 ≤ sA →
          oracle (refreshPlainRequest cfg rt) = HttpResult.resp sB bB → sB < 400 →
          bB.accessToken = some a →
          _refresh_delegated_token cfg oracle now st = Except.ok (true,
            _save_delegated_cache cfg { st with delegatedCache :=
              { accessToken := some a
                refreshToken := some (bB.refreshToken.getD rt)
                expiresAt := now + bB.expiresIn.getD 3600 } })))) := by
  constructor
  · intro h
    unfold _refresh_delegated_token
    rw [if_pos h]
  · intro hrt hne hboot hs1 ht1
    have hns1 : ¬ 400 ≤ s1 := not_le.mpr hs1
    refine ⟨?_, ?_, ?_⟩
    · intro sA bA sB bB hA hsA hB hsB
      simp [_refresh_delegated_token, hrt, pyTruthy, hne, refreshAttempt, hboot,
        raiseForStatus, hns1, bodyAccessToken, ht1, hA, hsA, hB, hsB]
    · intro sA bA a hA hsA ha
      have hnsA : ¬ 400 ≤ sA := not_le.mpr hsA
      simp [_refresh_delegated_token, hrt, pyTruthy, hne, refreshAttempt, hboot,
        raiseForStatus, hns1, bodyAccessToken, ht1, hA, hnsA, refreshSuccess, ha]
    · intro sA bA sB bB a hA hsA hB hsB ha
      have hnsB : ¬ 400 ≤ sB := not_le.mpr hsB
      simp [_refresh_delegated_token, hrt, pyTruthy, hne, refreshAttempt, hboot,
        raiseForStatus, hns1, bodyAccessToken, ht1, hA, hsA, hB, hnsB, refreshSuccess, ha]

/-- Witness for C5 on the assertion-grant success branch. -/
theorem c5_refresh_fallback_and_persist_witness :
    _refresh_delegated_token cfgBlueprint oracleAllOk 0
        { delegatedCache := { refreshToken := some "R0" } } =
      Except.ok (true, _save_delegated_cache cfgBlueprint
        { delegatedCache :=
            { accessToken := some "TOK", refreshToken := some "R",
              expiresAt := 0 + 3600 } }) :=
  ((c5_refresh_fallback_and_persist cfgBlueprint oracleAllOk 0
      { delegatedCache := { refreshToken := some "R0" } } "R0" "TOK" 200
      { accessToken := some "TOK", refreshToken := some "R", expiresIn := some 3600 }).2
    rfl (by decide) rfl (by decide) rfl).2.1 200
    { accessToken := some "TOK", refreshToken := some "R", expiresIn := some 3600 }
    "TOK" rfl (by decide) rfl

theorem save_preserves_delegated (cfg : Config) (st : AuthState) :
    (_save_delegated_cache cfg st).delegatedCache = st.delegatedCache := by
  unfold _save_delegated_cache
  split <;> rfl

theorem _get_legacy_token_fresh {cfg : Config} {oracle : Oracle} {now : ℚ} {st : AuthState}
    {a : String} {st' : AuthState}
    (hmiss : ¬(pyTruthy st.legacyCache.accessToken = true ∧ now < st.legacyCache.expiresAt - 60))
    (h : _get_legacy_token cfg oracle now st = Except.ok (a, st')) :
    ∃ s b, oracle (legacyTokenRequest cfg) = HttpResult.resp s b ∧ ¬ 400 ≤ s ∧
      st'.legacyCache.expiresAt = now + b.expiresIn.getD 3600 := by
  unfold _get_legacy_token at h
  rw [if_neg hmiss] at h
  split at h
  · exact absurd h (by simp)
  · split at h
    · exact absurd h (by simp)
    · split at h
      · exact absurd h (by simp)
      · obtain ⟨s, hq, hs⟩ := raiseForStatus_ok (by assumption)
        refine ⟨s, _, hq, hs, ?_⟩
        injection h with h2
        rw [Prod.mk.injEq] at h2
        rw [← h2.2]

theorem _acquire_agent_app_token_ok {cfg : Config} {oracle : Oracle} {b : Body}
    (h : _acquire_agent_app_token cfg oracle = Except.ok b) :
    ∃ req s, oracle req = HttpResult.resp s b ∧ ¬ 400 ≤ s := by
  unfold _acquire_agent_app_token at h
  split at h
  · exact absurd h (by simp)
  · split at h
    · exact absurd h (by simp)
    · obtain ⟨s, hq, hs⟩ := raiseForStatus_ok h
      exact ⟨_, s, hq, hs⟩

theorem get_graph_token_agent_fresh {cfg : Config} {oracle : Oracle} {now : ℚ}
    {st : AuthState} {a : String} {st' : AuthState}
    (hmode : _use_agent_id cfg = true)
    (hmiss : ¬(pyTruthy st.agentCache.accessToken = true ∧ now < st.agentCache.expiresAt - 60))
    (h : get_graph_token cfg oracle now st = Except.ok (a, st')) :
    ∃ req s b, oracle req = HttpResult.resp s b ∧ ¬ 400 ≤ s ∧
      st'.agentCache.expiresAt = now + b.expiresIn.getD 3600 := by
  unfold get_graph_token at h
  rw [hmode] at h
  simp only [if_true] at h
  rw [if_neg hmiss] at h
  split at h
  · exact absurd h (by simp)
  · split at h
    · exact absurd h (by simp)
    · obtain ⟨req, s, hq, hs⟩ := _acquire_agent_app_token_ok (by assumption)
      refine ⟨req, s, _, hq, hs, ?_⟩
      injection h with h2
      rw [Prod.mk.injEq] at h2
      rw [← h2.2]

theorem refreshSuccess_true {cfg : Config} {now : ℚ} {st : AuthState} {rt : String}
    {b : Body} {st' : AuthState}
    (h : refreshSuccess cfg now st rt b = Except.ok (true, st')) :
    st'.delegatedCache.expiresAt = now + b.expiresIn.getD 3600 := by
  unfold refreshSuccess at h
  split at h
  · exact absurd h (by simp)
  · injection h with h2
    rw [Prod.mk.injEq] at h2
    rw [← h2.2, save_preserves_delegated]

theorem refreshAttempt_true {cfg : Config} {oracle : Oracle} {now : ℚ} {st : AuthState}
    {rt : String} {st' : AuthState}
    (h : refreshAttempt cfg oracle now st rt = Except.ok (true, st')) :
    ∃ req s b, oracle req = HttpResult.resp s b ∧ ¬ 400 ≤ s ∧
      st'.delegatedCache.expiresAt = now + b.expiresIn.getD 3600 := by
  unfold refreshAttempt at h
  split at h
  · exact absurd h (by simp)
  · split at h
    · exact absurd h (by simp)
    · split at h
      · exact absurd h (by simp)
      · rename_i sA bA heqA
        split at h
        · split at h
          · exact absurd h (by simp)
          · rename_i sB bB heqB
            split at h
            · exact absurd h (by simp)
            · exact ⟨_, sB, bB, heqB, by assumption, refreshSuccess_true h⟩
        · exact ⟨_, sA, bA, heqA, by assumption, refreshSuccess_true h⟩

theorem _refresh_delegated_token_true {cfg : Config} {oracle : Oracle} {now : ℚ}
    {st : AuthState} {st' : AuthState}
    (h : _refresh_delegated_token cfg oracle now st = Except.ok (true, st')) :
    ∃ req s b, oracle req = HttpResult.resp s b ∧ ¬ 400 ≤ s ∧
      st'.delegatedCache.expiresAt = now + b.expiresIn.getD 3600 := by
  unfold _refresh_delegated_token at h
  split at h
  · exact absurd h (by simp)
  · split at h
    · rename_i r heq
      injection h with h2
      subst h2
      exact refreshAttempt_true heq
    · exact absurd h (by simp)
    · exact absurd h (by simp)
    · exact absurd h (by simp)
    · exact absurd h (by simp)

/-- C3 (counterexample): with the legacy registration configured, an empty
cache and a provider response reporting a zero-second TTL, `_get_legacy_token`
at time 1000 returns a token whose stored expires_at is 1000, so its
expires_at minus the 60-second skew is not in the future at return time —
refuting the claim for TTLs not exceeding the skew. -/
theorem c3_skew_counterexample :
    _get_legacy_token cfgLegacy oracleZeroTtl 1000 { } =
      Except.ok ("A",
        { legacyCache := { accessToken := some "A", expiresAt := 1000 + 0 } }) ∧
      ¬ ((1000 : ℚ) < (1000 + 0) - 60) := by
  constructor
  · simp [_get_legacy_token, pyTruthy, cfgLegacy, _acquire_legacy_token, oracleZeroTtl,
      raiseForStatus, bodyAccessToken, legacyTokenRequest]
  · norm_num

/-- C3 (amended): provided every provider-reported TTL strictly exceeds the
60-second skew (the code defaults an omitted TTL to 3600), every acquisition
that stores a token — the fresh legacy grant, the fresh blueprint two-step
grant, and the delegated refresh — stores as expires_at the absolute
timestamp acquisition time plus the TTL reported in the provider's response
body, so the stored expires_at exceeds the request time by at least TTL
minus skew and strictly exceeds the request time; and every call to
`get_graph_token`, `_get_legacy_token` or `get_graph_delegated_token` that
returns a token returns one whose expires_at minus 60 seconds is still in
the future at return time (the expiry lives in the cache of the path that
served the call). -/
theorem c3_expiry_validity (cfg : Config) (oracle : Oracle) (now : ℚ) (st : AuthState)
    (hTTL : ∀ r s b, oracle r = HttpResult.resp s b → 60 < b.expiresIn.getD 3600) :
    (∀ a st', ¬(pyTruthy st.legacyCache.accessToken = true ∧
        now < st.legacyCache.expiresAt - 60) →
      _get_legacy_token cfg oracle now st = Except.ok (a, st') →
      ∃ s b, oracle (legacyTokenRequest cfg) = HttpResult.resp s b ∧
        st'.legacyCache.expiresAt = now + b.expiresIn.getD 3600 ∧
        now + (b.expiresIn.getD 3600 - 60) ≤ st'.legacyCache.expiresAt ∧
        now < st'.legacyCache.expiresAt) ∧
    (∀ a st', _use_agent_id cfg = true →
      ¬(pyTruthy st.agentCache.accessToken = true ∧ now < st.agentCache.expiresAt - 60) →
      get_graph_token cfg oracle now st = Except.ok (a, st') →
      ∃ req s b, oracle req = HttpResult.resp s b ∧
        st'.agentCache.expiresAt = now + b.expiresIn.getD 3600 ∧
        now + (b.expiresIn.getD 3600 - 60) ≤ st'.agentCache.expiresAt ∧
        now < st'.agentCache.expiresAt) ∧
    (∀ st', _refresh_delegated_token cfg oracle now st = Except.ok (true, st') →
      ∃ req s b, oracle req = HttpResult.resp s b ∧
        st'.delegatedCache.expiresAt = now + b.expiresIn.getD 3600 ∧
        now + (b.expiresIn.getD 3600 - 60) ≤ st'.delegatedCache.expiresAt ∧
        now < st'.delegatedCache.expiresAt) ∧
    (∀ a st', _get_legacy_token cfg oracle now st = Except.ok (a, st') →
      now < st'.legacyCache.expiresAt - 60) ∧
    (∀ a st', get_graph_token cfg oracle now st = Except.ok (a, st') →
      now < (if _use_agent_id cfg then st'.agentCache.expiresAt
             else st'.legacyCache.expiresAt) - 60) ∧
    (∀ a st', get_graph_delegated_token cfg oracle now st = Except.ok (a, st') →
      now < (if _use_agent_id cfg then st'.delegatedCache.expiresAt
             else st'.legacyCache.expiresAt) - 60) := by
  have hlegacy : ∀ (st₀ : AuthState) (a : String) (st' : AuthState),
      _get_legacy_token cfg oracle now st₀ = Except.ok (a, st') →
      now < st'.legacyCache.expiresAt - 60 := by
    intro st₀ a st' h
    by_cases hmiss :
        pyTruthy st₀.legacyCache.accessToken = true ∧ now < st₀.legacyCache.expiresAt - 60
    · unfold _get_legacy_token at h
      rw [if_pos hmiss] at h
      injection h with h2
      rw [Prod.mk.injEq] at h2
      rw [← h2.2]
      exact hmiss.2
    · obtain ⟨s, b, hq, _, hexp⟩ := _get_legacy_token_fresh hmiss h
      have := hTTL _ _ _ hq
      rw [hexp]
      linarith
  refine ⟨?_, ?_, ?_, hlegacy st, ?_, ?_⟩
  · intro a st' hmiss h
    obtain ⟨s, b, hq, _, hexp⟩ := _get_legacy_token_fresh hmiss h
    have := hTTL _ _ _ hq
    exact ⟨s, b, hq, hexp, by rw [hexp]; linarith, by rw [hexp]; linarith⟩
  · intro a st' hmode hmiss h
    obtain ⟨req, s, b, hq, _, hexp⟩ := get_graph_token_agent_fresh hmode hmiss h
    have := hTTL _ _ _ hq
    exact ⟨req, s, b, hq, hexp, by rw [hexp]; linarith, by rw [hexp]; linarith⟩
  · intro st' h
    obtain ⟨req, s, b, hq, _, hexp⟩ := _refresh_delegated_token_true h
    have := hTTL _ _ _ hq
    exact ⟨req, s, b, hq, hexp, by rw [hexp]; linarith, by rw [hexp]; linarith⟩
  · intro a st' h
    by_cases hmode : _use_agent_id cfg = true
    · rw [if_pos hmode]
      by_cases hmiss :
          pyTruthy st.agentCache.accessToken = true ∧ now < st.agentCache.expiresAt - 60
      · unfold get_graph_token at h
        rw [hmode] at h
        simp only [if_true] at h
        rw [if_pos hmiss] at h
        injection h with h2
        rw [Prod.mk.injEq] at h2
        rw [← h2.2]
        exact hmiss.2
      · obtain ⟨req, s, b, hq, _, hexp⟩ := get_graph_token_agent_fresh hmode hmiss h
        have := hTTL _ _ _ hq
        rw [hexp]
        linarith
    · rw [if_neg hmode]
      unfold get_graph_token at h
      rw [if_neg (by simpa using hmode)] at h
      exact hlegacy st a st' h
  · intro a st' h
    by_cases hmode : _use_agent_id cfg = true
    · rw [if_pos hmode]
      unfold get_graph_delegated_token at h
      rw [hmode] at h
      simp only [not_true_eq_false, if_false] at h
      split at h
      · injection h with h2
        rw [Prod.mk.injEq] at h2
        rw [← h2.2]
        rename_i hvalid
        exact hvalid.2
      · split at h
        · obtain ⟨req, s, b, hq, _, hexp⟩ := _refresh_delegated_token_true (by assumption)
          injection h with h2
          rw [Prod.mk.injEq] at h2
          rw [← h2.2]
          have := hTTL _ _ _ hq
          rw [hexp]
          linarith
        · exact absurd h (by simp)
        · exact absurd h (by simp)
    · rw [if_neg hmode]
      unfold get_graph_delegated_token at h
      rw [if_pos (by simpa using hmode)] at h
      exact hlegacy st a st' h

/-- Witness for C3's amended statement on the legacy path with a 3600-second
TTL. -/
theorem c3_expiry_validity_witness :
    (0 : ℚ) <
      ({ legacyCache := { accessToken := some "TOK", expiresAt := 0 + 3600 } } :
        AuthState).legacyCache.expiresAt - 60 :=
  (c3_expiry_validity cfgLegacy oracleAllOk 0 { }
      (by
        intro r s b h
        injection h with h1 h2
        subst h2
        norm_num)).2.2.2.1
    "TOK" { legacyCache := { accessToken := some "TOK", expiresAt := 0 + 3600 } }
    (by
      simp [_get_legacy_token, pyTruthy, cfgLegacy, _acquire_legacy_token, oracleAllOk,
        raiseForStatus, bodyAccessToken, legacyTokenRequest])

theorem obo_exchange_ok {cfg : Config} {oracle : Oracle} {redirectUri : String} {now : ℚ}
    {authCode : String} {td : TokenData}
    (h : obo_exchange cfg oracle redirectUri now authCode = Except.ok td) :
    ∃ req s b, oracle req = HttpResult.resp s b ∧ ¬ 400 ≤ s ∧ td = tokenDataOfBody now b := by
  unfold obo_exchange at h
  split at h
  · exact absurd h (by simp)
  · rename_i s b heq
    split at h
    · split at h
      · exact absurd h (by simp)
      · split at h
        · exact absurd h (by simp)
        · rename_i s2 b2 heq2
          split at h
          · exact absurd h (by simp)
          · injection h with h2
            exact ⟨_, s2, b2, heq2, by assumption, h2.symm⟩
    · injection h with h2
      exact ⟨_, s, b, heq, by assumption, h2.symm⟩

theorem try_obo_exchange_some {cfg : Config} {oracle : Oracle} {now : ℚ} {ut : String}
    {td : TokenData} (h : try_obo_exchange cfg oracle now ut = Except.ok (some td)) :
    ∃ req s b, oracle req = HttpResult.resp s b ∧ ¬ 400 ≤ s ∧
      td.expiresAt = now + b.expiresIn.getD 3600 := by
  unfold try_obo_exchange at h
  split at h
  · exact absurd h (by simp)
  · split at h
    · exact absurd h (by simp)
    · rename_i s b heq
      split at h
      · exact absurd h (by simp)
      · split at h
        · exact absurd h (by simp)
        · injection h with h2
          injection h2 with h3
          exact ⟨_, s, b, heq, by assumption, by rw [← h3]⟩

theorem consentOnlyFlow_ok {cfg : Config} {oracle : Oracle} {now : ℚ} {td : TokenData}
    (h : consentOnlyFlow cfg oracle now = Except.ok td) :
    ∃ req s b, oracle req = HttpResult.resp s b ∧ ¬ 400 ≤ s ∧
      td.expiresAt = now + b.expiresIn.getD 3600 := by
  unfold consentOnlyFlow at h
  split at h
  · exact absurd h (by simp)
  · split at h
    · exact absurd h (by simp)
    · split at h
      · exact absurd h (by simp)
      · obtain ⟨s, hq, hs⟩ := raiseForStatus_ok (by assumption)
        injection h with h2
        exact ⟨_, s, _, hq, hs, by rw [← h2]⟩

/-- C10 (implicit): in every acquisition and refresh path — legacy app
token, blueprint app token, delegated refresh, code redemption, OBO
exchange, consent-only fallback — when the provider's token response omits
the expires_in field, the stored expires_at is the request time plus the
fixed default of 3600 seconds (the response is neither rejected nor treated
as already expired). -/
theorem c10_default_ttl (cfg : Config) (oracle : Oracle) (now : ℚ) (st : AuthState)
    (redirectUri authCode userToken : String)
    (hNoTtl : ∀ r s b, oracle r = HttpResult.resp s b → b.expiresIn = none) :
    (∀ a st', ¬(pyTruthy st.legacyCache.accessToken = true ∧
        now < st.legacyCache.expiresAt - 60) →
      _get_legacy_token cfg oracle now st = Except.ok (a, st') →
      st'.legacyCache.expiresAt = now + 3600) ∧
    (∀ a st', _use_agent_id cfg = true →
      ¬(pyTruthy st.agentCache.accessToken = true ∧ now < st.agentCache.expiresAt - 60) →
      get_graph_token cfg oracle now st = Except.ok (a, st') →
      st'.agentCache.expiresAt = now + 3600) ∧
    (∀ st', _refresh_delegated_token cfg oracle now st = Except.ok (true, st') →
      st'.delegatedCache.expiresAt = now + 3600) ∧
    (∀ td, obo_exchange cfg oracle redirectUri now authCode = Except.ok td →
      td.expiresAt = now + 3600) ∧
    (∀ td, try_obo_exchange cfg oracle now userToken = Except.ok (some td) →
      td.expiresAt = now + 3600) ∧
    (∀ td, consentOnlyFlow cfg oracle now = Except.ok td → td.expiresAt = now + 3600) := by
  refine ⟨?_, ?_, ?_, ?_, ?_, ?_⟩
  · intro a st' hmiss h
    obtain ⟨s, b, hq, _, hexp⟩ := _get_legacy_token_fresh hmiss h
    rw [hexp]
    simp [hNoTtl _ _ _ hq]
  · intro a st' hmode hmiss h
    obtain ⟨req, s, b, hq, _, hexp⟩ := get_graph_token_agent_fresh hmode hmiss h
    rw [hexp]
    simp [hNoTtl _ _ _ hq]
  · intro st' h
    obtain ⟨req, s, b, hq, _, hexp⟩ := _refresh_delegated_token_true h
    rw [hexp]
    simp [hNoTtl _ _ _ hq]
  · intro td h
    obtain ⟨req, s, b, hq, _, htd⟩ := obo_exchange_ok h
    rw [htd]
    simp [tokenDataOfBody, hNoTtl _ _ _ hq]
  · intro td h
    obtain ⟨req, s, b, hq, _, hexp⟩ := try_obo_exchange_some h
    rw [hexp]
    simp [hNoTtl _ _ _ hq]
  · intro td h
    obtain ⟨req, s, b, hq, _, hexp⟩ := consentOnlyFlow_ok h
    rw [hexp]
    simp [hNoTtl _ _ _ hq]

/-- Witness for C10 on the code-redemption path with a response omitting
expires_in. -/
theorem c10_default_ttl_witness :
    (tokenDataOfBody 0 { accessToken := some "TOK", refreshToken := some "R" }).expiresAt =
      0 + 3600 :=
  (c10_default_ttl cfgBlueprint oracleNoTtl 0 { } "uri" "C" "U"
      (by
        intro r s b h
        injection h with h1 h2
        rw [← h2])).2.2.2.1
    (tokenDataOfBody 0 { accessToken := some "TOK", refreshToken := some "R" }) rfl

/-- C6 (counterexample): code redemption succeeds (primary attempt, status
200, yielding Tc), the full OBO exchange is then attempted, and it fails —
its bootstrap-token acquisition is rejected with HTTP 400, so
`try_obo_exchange` raises instead of returning None. Contrary to the claim,
the directly redeemed token Tc is NOT persisted: the handler answers 500 and
writes nothing durable. -/
theorem c6_obo_bootstrap_failure_counterexample :
    obo_exchange cfgBlueprint oracleBootstrapRejected
        (cfgBlueprint.authRedirectBaseUrl ++ "/callback") 0 "AAA" =
      Except.ok (tokenDataOfBody 0
        { accessToken := some "TC", refreshToken := some "RC", expiresIn := some 3600 }) ∧
    try_obo_exchange cfgBlueprint oracleBootstrapRejected 0
        (tokenDataOfBody 0
          { accessToken := some "TC", refreshToken := some "RC",
            expiresIn := some 3600 }).accessToken =
      Except.error (AuthErr.httpStatus 400) ∧
    functions_callback_main cfgBlueprint oracleBootstrapRejected 0
        { code := some "AAA", stateParam := some "good" } = (500, none) :=
  ⟨rfl, rfl, rfl⟩

/-- C6 (amended): for every callback carrying a valid state and an
authorization code, redemption first uses the blueprint client id/secret; on
a status at or above 400 it retries as the agent client with a fresh
bootstrap-token client_assertion; after a successful redemption the full OBO
exchange is attempted, and the durable record persisted is the OBO-derived
token when the OBO exchange succeeds, the directly redeemed token Tc when
the OBO jwt-bearer request is refused with a status at or above 400, and —
unlike what the original claim states — nothing at all (response 500) when
the OBO attempt raises, e.g. when its bootstrap-token acquisition fails. -/
theorem c6_redeem_and_persist (cfg : Config) (oracle : Oracle) (now : ℚ)
    (params : CallbackParams) (authCode : String)
    (hne : pyTruthy params.errParam = false)
    (hcode : params.code = some authCode) (hcne : authCode ≠ "") :
    (∀ ruri s b,
      oracle (codeRedeemPrimaryRequest cfg ruri authCode) = HttpResult.resp s b → s < 400 →
      obo_exchange cfg oracle ruri now authCode = Except.ok (tokenDataOfBody now b)) ∧
    (∀ ruri s b t1 s2 b2,
      oracle (codeRedeemPrimaryRequest cfg ruri authCode) = HttpResult.resp s b → 400 ≤ s →
      get_bootstrap_token cfg oracle = Except.ok t1 →
      oracle (codeRedeemFallbackRequest cfg ruri t1 authCode) = HttpResult.resp s2 b2 →
      s2 < 400 →
      obo_exchange cfg oracle ruri now authCode = Except.ok (tokenDataOfBody now b2)) ∧
    (∀ ruri s b t1 s2 b2,
      oracle (codeRedeemPrimaryRequest cfg ruri authCode) = HttpResult.resp s b → 400 ≤ s →
      get_bootstrap_token cfg oracle = Except.ok t1 →
      oracle (codeRedeemFallbackRequest cfg ruri t1 authCode) = HttpResult.resp s2 b2 →
      400 ≤ s2 →
      obo_exchange cfg oracle ruri now authCode =
        Except.error (AuthErr.runtime "Code redemption failed")) ∧
    (∀ td o,
      obo_exchange cfg oracle (cfg.authRedirectBaseUrl ++ "/callback") now authCode =
        Except.ok td →
      try_obo_exchange cfg oracle now td.accessToken = Except.ok (some o) →
      functions_callback_main cfg oracle now params = (200, some o)) ∧
    (∀ td,
      obo_exchange cfg oracle (cfg.authRedirectBaseUrl ++ "/callback") now authCode =
        Except.ok td →
      try_obo_exchange cfg oracle now td.accessToken = Except.ok none →
      functions_callback_main cfg oracle now params = (200, some td)) ∧
    (∀ td e,
      obo_exchange cfg oracle (cfg.authRedirectBaseUrl ++ "/callback") now authCode =
        Except.ok td →
      try_obo_exchange cfg oracle now td.accessToken = Except.error e →
      functions_callback_main cfg oracle now params = (500, none)) ∧
    (∀ e,
      obo_exchange cfg oracle (cfg.authRedirectBaseUrl ++ "/callback") now authCode =
        Except.error e →
      functions_callback_main cfg oracle now params = (500, none)) := by
  have hpt : pyTruthy (some authCode) = true := by simp [pyTruthy, hcne]
  have hmain : ∀ r : Except AuthErr TokenData,
      redeemAndObo cfg oracle (cfg.authRedirectBaseUrl ++ "/callback") now authCode = r →
      functions_callback_main cfg oracle now params =
        (match r with
          | Except.ok final => (200, some final)
          | Except.error _ => (500, none)) := by
    intro r hr
    unfold functions_callback_main
    rw [hcode]
    simp only [hne, Bool.false_eq_true, if_false, hpt, not_true_eq_false, Option.getD_some, hr]
  refine ⟨?_, ?_, ?_, ?_, ?_, ?_, ?_⟩
  · intro ruri s b hq hs
    simp [obo_exchange, hq, not_le.mpr hs]
  · intro ruri s b t1 s2 b2 hq hs hb hq2 hs2
    simp [obo_exchange, hq, hs, hb, hq2, not_le.mpr hs2]
  · intro ruri s b t1 s2 b2 hq hs hb hq2 hs2
    simp [obo_exchange, hq, hs, hb, hq2, hs2]
  · intro td o hobo htry
    have := hmain (Except.ok o) (by simp only [redeemAndObo, hobo, htry])
    simpa using this
  · intro td hobo htry
    have := hmain (Except.ok td) (by simp only [redeemAndObo, hobo, htry])
    simpa using this
  · intro td e hobo htry
    have := hmain (Except.error e) (by simp only [redeemAndObo, hobo, htry])
    simpa using this
  · intro e hobo
    have := hmain (Except.error e) (by simp only [redeemAndObo, hobo])
    simpa using this

/-- Witness for C6's amended statement: successful redemption and successful
OBO exchange persist the OBO-derived token with a 200 response. -/
theorem c6_redeem_and_persist_witness :
    functions_callback_main cfgBlueprint oracleAllOk 0 { code := some "AAA" } =
      (200, some { accessToken := "TOK", refreshToken := "R", expiresAt := 0 + 3600 }) :=
  (c6_redeem_and_persist cfgBlueprint oracleAllOk 0 { code := some "AAA" } "AAA"
      rfl rfl (by decide)).2.2.2.1
    (tokenDataOfBody 0
      { accessToken := some "TOK", refreshToken := some "R", expiresIn := some 3600 })
    { accessToken := "TOK", refreshToken := "R", expiresAt := 0 + 3600 } rfl rfl

end SalesPitchAuth
